import Mathlib

/-!
Verification of the Oracle persistence and resilience layer of the
sugarcane harvest monitoring system.

The definitions below are shallow embeddings of the Python modules under
`src/persistence/oracle/`:

* `error_handler.py` — error classification (`OracleError`), the retry
  policy (`RetryPolicy`) and the `with_retry` decorator;
* `session_dao.py` — session lifecycle (`SessionDAO`): `create_session`,
  `update_status`, `end_session`, id generation;
* `connector.py` — `OracleConnector.create_tables` and the simulated-mode
  `DummyConnection`/`DummyCursor`;
* `schema_initializer.py` — `SchemaInitializer.create_schema`;
* `sensor_dao.py`, `emissions_dao.py`, `carbon_stock_dao.py`,
  `harvest_dao.py` — the batch record DAOs.

Modelling conventions: Python floats are modelled as rationals; wall-clock
timestamps are opaque naturals; the relational tables are lists of rows;
an optimistic-concurrency race is modelled by letting the read and the
conditional update run against two (possibly different) database states.
Python exceptions are `Except` errors: `cx_Oracle.Error` carries the
Oracle error code, any other exception carries a message.
-/

namespace HarvestOracle

/-! ## Error classifier (`error_handler.py`, class `OracleError`) -/

/-- Oracle error codes classified as connection failures (`CONNECTION_ERRORS`). -/
def CONNECTION_ERRORS : List Nat := [3113, 3114, 12541, 12545, 12170, 12547]

/-- Oracle error codes classified as resource exhaustion (`RESOURCE_ERRORS`). -/
def RESOURCE_ERRORS : List Nat := [30, 1033, 1034, 1089, 4031]

/-- Oracle error codes classified as constraint violations (`CONSTRAINT_ERRORS`). -/
def CONSTRAINT_ERRORS : List Nat := [1, 2290, 2291, 2292, 2293]

/-- Oracle error codes for duplicate records (`UNIQUE_ERRORS`); note this is
not one of the categories returned by `_get_category`. -/
def UNIQUE_ERRORS : List Nat := [1, 1400]

/-- Oracle error codes classified as permission problems (`PERMISSION_ERRORS`). -/
def PERMISSION_ERRORS : List Nat := [1031, 1017, 942]

/-- Oracle error codes classified as timeouts (`TIMEOUT_ERRORS`). -/
def TIMEOUT_ERRORS : List Nat := [1013, 12535, 12609]

/-- Codes eligible for retry: `RECOVERABLE_ERRORS = CONNECTION_ERRORS +
RESOURCE_ERRORS + TIMEOUT_ERRORS` in the source. -/
def RECOVERABLE_ERRORS : List Nat :=
  CONNECTION_ERRORS ++ RESOURCE_ERRORS ++ TIMEOUT_ERRORS

/-- The `is_recoverable` flag computed by `OracleError._classify`. -/
def is_recoverable (code : Nat) : Bool :=
  decide (code ∈ RECOVERABLE_ERRORS)

/-- The categories returned by `OracleError._get_category`. -/
inductive ErrorCategory where
  | CONNECTION
  | RESOURCE
  | CONSTRAINT
  | PERMISSION
  | TIMEOUT
  | UNKNOWN
deriving DecidableEq, Repr

/-- The if-elif chain of `OracleError._get_category`: first matching list
wins, codes outside every list map to `UNKNOWN`. -/
def get_category (code : Nat) : ErrorCategory :=
  if code ∈ CONNECTION_ERRORS then .CONNECTION
  else if code ∈ RESOURCE_ERRORS then .RESOURCE
  else if code ∈ CONSTRAINT_ERRORS then .CONSTRAINT
  else if code ∈ PERMISSION_ERRORS then .PERMISSION
  else if code ∈ TIMEOUT_ERRORS then .TIMEOUT
  else .UNKNOWN

/-- The spec taxonomy: which categories are recoverable. -/
def category_recoverable : ErrorCategory → Bool
  | .CONNECTION => true
  | .RESOURCE => true
  | .TIMEOUT => true
  | .CONSTRAINT => false
  | .PERMISSION => false
  | .UNKNOWN => false

/-! ## Retry policy (`error_handler.py`, class `RetryPolicy` and `with_retry`) -/

/-- A classified Oracle error, reduced to the code that drives every
decision in `RetryPolicy` and `with_retry`. -/
structure OracleErrorInfo where
  code : Nat
deriving DecidableEq, Repr

/-- Configuration of `RetryPolicy.__init__`. Floats are modelled as
rationals. -/
structure RetryPolicy where
  max_attempts : Nat
  initial_delay : ℚ
  backoff_factor : ℚ
  max_delay : ℚ
deriving DecidableEq, Repr

/-- The constructor defaults `RetryPolicy(3, 1.0, 2.0, 30.0)`. -/
def defaultRetryPolicy : RetryPolicy :=
  { max_attempts := 3, initial_delay := 1, backoff_factor := 2, max_delay := 30 }

/-- `RetryPolicy.should_retry`: refuse once the attempt counter reaches
`max_attempts`, otherwise follow the recoverability of the error. -/
def should_retry (p : RetryPolicy) (e : OracleErrorInfo) (attempt : Nat) : Bool :=
  if p.max_attempts ≤ attempt then false
  else is_recoverable e.code

/-- `RetryPolicy.get_delay`: exponential backoff capped at `max_delay`,
then multiplied by the jitter drawn from `random.uniform(0.8, 1.2)`; the
drawn jitter is passed in explicitly. -/
def get_delay (p : RetryPolicy) (attempt : Nat) (jitter : ℚ) : ℚ :=
  let d := p.initial_delay * p.backoff_factor ^ attempt
  let capped := min d p.max_delay
  capped * jitter

/-- A Python exception as seen by the `with_retry` wrapper: either a
`cx_Oracle.Error` with its code, or any other exception. -/
inductive PyExc where
  | oracle (code : Nat)
  | other (msg : String)
deriving DecidableEq, Repr

/-- Outcome of a `with_retry`-wrapped call. -/
inductive RetryOutcome (α : Type) where
  | ok (a : α)
  /-- the generalized `RuntimeError` raised after the loop, carrying the
  attempt count of the message and the last Oracle error -/
  | generalized (attempts : Nat) (code : Nat)
  /-- a non-Oracle exception re-raised without retry -/
  | reraised (msg : String)
  /-- the degenerate `max_attempts = 0` path: the loop never runs and no
  last error exists -/
  | noAttempt
deriving DecidableEq, Repr

/-- The `while attempt < max_attempts` loop of `with_retry`. The operation
is indexed by the number of calls already made, so a run can behave
differently on each invocation. `fuel` is `max_attempts - attempt`; the
returned natural is the total number of invocations of the operation. -/
def retry_loop (p : RetryPolicy) (op : Nat → Except PyExc α) :
    Nat → Nat → Option Nat → Nat → Nat × RetryOutcome α
  | calls, attempt, lastCode, 0 =>
      (calls,
        match lastCode with
        | some c => .generalized attempt c
        | none => .noAttempt)
  | calls, attempt, _, fuel + 1 =>
      match op calls with
      | .ok a => (calls + 1, .ok a)
      | .error (.other m) => (calls + 1, .reraised m)
      | .error (.oracle c) =>
          if should_retry p ⟨c⟩ (attempt + 1) then
            retry_loop p op (calls + 1) (attempt + 1) (some c) fuel
          else
            (calls + 1, .generalized (attempt + 1) c)

/-- Running a `with_retry()(func)`-decorated operation. -/
def with_retry_run (p : RetryPolicy) (op : Nat → Except PyExc α) :
    Nat × RetryOutcome α :=
  retry_loop p op 0 0 none p.max_attempts

/-! ## Session lifecycle (`session_dao.py`, class `SessionDAO`) -/

/-- A row of the `sessions` table. Timestamps are opaque naturals. -/
structure SessionRow where
  session_id : String
  start_timestamp : Nat
  end_timestamp : Option Nat
  status : String
  created_by : String
  last_updated : Nat
  version : Nat
deriving DecidableEq, Repr

/-- The `sessions` table. -/
abbrev SessionDB := List SessionRow

/-- The errors a DAO method can raise: Python `ValueError` or
`RuntimeError`, identified by message. -/
inductive DaoError where
  | valueError (msg : String)
  | runtimeError (msg : String)
deriving DecidableEq, Repr

/-- A DAO-level exception as the `with_retry` wrapper sees it. The
modelled executions never raise `cx_Oracle.Error`, so both variants map
to non-Oracle exceptions. -/
def daoToPy : Except DaoError α → Except PyExc α
  | .ok a => .ok a
  | .error (.valueError m) => .error (.other m)
  | .error (.runtimeError m) => .error (.other m)

/-- The `get_by_id` query: fetch the row whose `session_id` matches. -/
def find_session (db : SessionDB) (sid : String) : Option SessionRow :=
  db.find? (fun r => r.session_id == sid)

/-- Statuses accepted by `update_status`. -/
def VALID_STATUSES : List String := ["active", "paused", "completed", "aborted"]

/-- Statuses accepted by `end_session`; also the terminal statuses its
pre-check refuses to end again. -/
def END_STATUSES : List String := ["completed", "aborted"]

/-- The `update_status` SQL statement: `UPDATE sessions SET status, last_updated,
version = version + 1 WHERE session_id = :sid AND version = :v`. Returns the
row count together with the updated table. -/
def sql_update_status (db : SessionDB) (sid status : String) (now v : Nat) :
    Nat × SessionDB :=
  (db.countP (fun r => r.session_id == sid && r.version == v),
   db.map (fun r =>
     if r.session_id == sid && r.version == v then
       { r with status := status, last_updated := now, version := r.version + 1 }
     else r))

/-- The `end_session` SQL statement: additionally sets `end_timestamp`. -/
def sql_end_session (db : SessionDB) (sid status : String) (endTs now v : Nat) :
    Nat × SessionDB :=
  (db.countP (fun r => r.session_id == sid && r.version == v),
   db.map (fun r =>
     if r.session_id == sid && r.version == v then
       { r with end_timestamp := some endTs, status := status,
                last_updated := now, version := r.version + 1 }
     else r))

/-- `SessionDAO.update_status`. A concurrent writer is modelled by letting
the initial read run against `readDb` while the conditional update runs
against `updDb`; a single-writer execution passes the same table twice. -/
def update_status (readDb updDb : SessionDB) (sid status : String) (now : Nat) :
    Except DaoError (Bool × SessionDB) :=
  if status ∈ VALID_STATUSES then
    match find_session readDb sid with
    | none => .ok (false, updDb)
    | some row =>
        let res := sql_update_status updDb sid status now row.version
        if res.1 = 0 then .ok (false, updDb)
        else .ok (true, res.2)
  else .error (.valueError "Status invalido")

/-- `SessionDAO.end_session`: validates the final status, refuses a row
that is already ended (non-null `end_timestamp` or terminal status), then
performs the version-conditional update. -/
def end_session (readDb updDb : SessionDB) (sid status : String) (endTs now : Nat) :
    Except DaoError (Bool × SessionDB) :=
  if status ∈ END_STATUSES then
    match find_session readDb sid with
    | none => .ok (false, updDb)
    | some row =>
        if row.end_timestamp.isSome = true ∨ row.status ∈ END_STATUSES then
          .ok (false, updDb)
        else
          let res := sql_end_session updDb sid status endTs now row.version
          if res.1 = 0 then .ok (false, updDb)
          else .ok (true, res.2)
  else .error (.valueError "Status invalido para encerramento")

/-- `SessionDAO._generate_session_id`: timestamp prefix joined to the
first 8 characters of a fresh UUID. -/
def generate_session_id (timeStr uuidStr : String) : String :=
  timeStr ++ "-" ++ (uuidStr.take 8)

/-- The id selection in `create_session`:
`metadata.get(session_id_key) or self._generate_session_id()`. A missing key
or a falsy (empty) value falls back to the generated id. -/
def choose_session_id (metaSid : Option String) (generated : String) : String :=
  match metaSid with
  | some s => if s = "" then generated else s
  | none => generated

/-- How `create_session` reaches the store: either the real table or the
simulated-mode `DummyConnection` of `OracleConnector.get_connection`. -/
inductive ConnMode where
  | real (db : SessionDB)
  | simulated
deriving DecidableEq, Repr

/-- The `fetchone()` truthiness of the existence check in `create_session`.
In simulated mode the query runs on `DummyCursor`, whose `fetchone` always
returns the list `[1]` — a truthy value. -/
def session_exists_check (m : ConnMode) (sid : String) : Bool :=
  match m with
  | .simulated => true
  | .real db => (find_session db sid).isSome

/-- `SessionDAO.create_session`: choose the id, raise `ValueError` if the
existence check fires, otherwise insert the row with status `active` and
version 1. -/
def create_session (m : ConnMode) (metaSid : Option String)
    (createdBy : Option String) (generated : String) (now : Nat) :
    Except DaoError (String × ConnMode) :=
  let sid := choose_session_id metaSid generated
  let newRow : SessionRow :=
    { session_id := sid, start_timestamp := now, end_timestamp := none,
      status := "active", created_by := createdBy.getD "system",
      last_updated := now, version := 1 }
  if session_exists_check m sid then
    .error (.valueError "Sessao ja existe")
  else
    match m with
    | .simulated => .ok (sid, .simulated)
    | .real db => .ok (sid, .real (db ++ [newRow]))

/-! ## Schema creation (`connector.py` `create_tables` and
`schema_initializer.py` `create_schema`)

The data-dictionary state is a list of tables, each carrying its row
count, plus a list of index names. Oracle upper-cases unquoted
identifiers, so all names are stored upper-case. `CREATE` of an existing
object raises ORA-00955, which both functions swallow as success; this is
modelled by `create_table_if_absent` leaving the store unchanged. -/

/-- Data-dictionary state: tables with their row counts, and indices. -/
structure OracleStore where
  tables : List (String × Nat)
  indices : List String
deriving DecidableEq, Repr

/-- Whether a table of this name exists. -/
def has_table (s : OracleStore) (name : String) : Bool :=
  s.tables.any (fun t => t.1 == name)

/-- Row count of a table, when it exists. -/
def table_rows (s : OracleStore) (name : String) : Option Nat :=
  (s.tables.find? (fun t => t.1 == name)).map (fun t => t.2)

/-- The five fixed tables, in dependency order (sessions first). -/
def FIVE_TABLES : List String :=
  ["SESSIONS", "SENSOR_DATA", "GHG_EMISSIONS", "CARBON_STOCKS", "HARVEST_LOSSES"]

/-- The four tables referencing `sessions` by foreign key. -/
def DEPENDENT_TABLES : List String :=
  ["SENSOR_DATA", "GHG_EMISSIONS", "CARBON_STOCKS", "HARVEST_LOSSES"]

/-- Indices created by `OracleConnector.create_tables`. -/
def CONNECTOR_INDICES : List String :=
  ["IDX_SENSOR_SESSION_TIME", "IDX_EMISSIONS_SESSION_CAT",
   "IDX_CARBON_SESSION_TYPE", "IDX_HARVEST_SESSION_TIME"]

/-- Indices created by `SchemaInitializer.create_schema`. -/
def INITIALIZER_INDICES : List String :=
  ["IDX_SENSOR_SESSION_TIME", "IDX_EMISSIONS_SESSION",
   "IDX_CARBON_SESSION", "IDX_LOSSES_SESSION"]

/-- Executing `CREATE TABLE`, treating ORA-00955 (name already used) as
success: an existing table is left untouched, a missing one is created
empty. -/
def create_table_if_absent (s : OracleStore) (name : String) : OracleStore :=
  if has_table s name then s
  else { s with tables := s.tables ++ [(name, 0)] }

/-- Executing `CREATE INDEX`, treating ORA-00955 as success. -/
def create_index_if_absent (s : OracleStore) (name : String) : OracleStore :=
  if s.indices.contains name then s
  else { s with indices := s.indices ++ [name] }

/-- Executing `DROP TABLE`, as `SchemaInitializer._drop_existing_tables`
does: the table and every record in it disappear. -/
def drop_table (s : OracleStore) (name : String) : OracleStore :=
  { s with tables := s.tables.filter (fun t => !(t.1 == name)) }

/-- `OracleConnector.create_tables`: enumerate the existing subset of the
five fixed tables, create `sessions` first when missing, then the missing
dependent tables, then the indices. -/
def create_tables (s : OracleStore) : Bool × OracleStore :=
  let existing := FIVE_TABLES.filter (fun t => has_table s t)
  let toCreate1 := if "SESSIONS" ∈ existing then ([] : List String) else ["SESSIONS"]
  let toCreate :=
    if "SESSIONS" ∈ existing ∨ "SESSIONS" ∈ toCreate1 then
      toCreate1 ++ DEPENDENT_TABLES.filter (fun t => !(has_table s t))
    else toCreate1
  let s1 := toCreate.foldl create_table_if_absent s
  let s2 := CONNECTOR_INDICES.foldl create_index_if_absent s1
  (true, s2)

/-- `SchemaInitializer.create_schema`: enumerate the existing subset of
the five fixed tables, DROP every one of them, then recreate all five and
the indices. -/
def create_schema (s : OracleStore) : Bool × OracleStore :=
  let existing := FIVE_TABLES.filter (fun t => has_table s t)
  let s1 := existing.foldl drop_table s
  let s2 := FIVE_TABLES.foldl create_table_if_absent s1
  let s3 := INITIALIZER_INDICES.foldl create_index_if_absent s2
  (true, s3)

/-! ## Sensor batch DAO (`sensor_dao.py`, `save_sensor_data`)

Per-reading ISO-timestamp parsing is abstracted away (no claim depends on
it); every stored row carries the call timestamp `now`. -/

/-- A scalar Python value as the validation `isinstance(v, (int, float))`
sees it. -/
inductive PyScalar where
  | num (q : ℚ)
  | str (s : String)
  | noneV
deriving DecidableEq, Repr

/-- One candidate sensor reading: the simple format (a bare value) or the
full dict format with a `value` key; a dict without a `value` key falls
through to the simple branch with the dict itself as the (non-numeric)
value. -/
inductive SensorReading where
  | num (q : ℚ)
  | str (s : String)
  | noneVal
  | dictWith (value : PyScalar) (unit : Option String) (quality : Option String)
  | dictNoValue
deriving DecidableEq, Repr

/-- The value submitted to the numeric validation for a reading. -/
def extracted_value : SensorReading → PyScalar
  | .num q => .num q
  | .str s => .str s
  | .noneVal => .noneV
  | .dictWith v _ _ => v
  | .dictNoValue => .noneV

/-- `isinstance(sensor_value, (int, float))`. -/
def is_numeric : PyScalar → Bool
  | .num _ => true
  | _ => false

/-- A row of the `sensor_data` table (identity column omitted). -/
structure SensorRow where
  session_id : String
  timestamp : Nat
  sensor_type : String
  sensor_value : ℚ
  unit : String
  quality_flag : String
deriving DecidableEq, Repr

/-- The row built for one valid candidate. -/
def sensor_row (sid sname : String) (now : Nat) (r : SensorReading) (q : ℚ) :
    SensorRow :=
  match r with
  | .dictWith _ u qf =>
      { session_id := sid, timestamp := now, sensor_type := sname,
        sensor_value := q, unit := u.getD "", quality_flag := qf.getD "GOOD" }
  | _ =>
      { session_id := sid, timestamp := now, sensor_type := sname,
        sensor_value := q, unit := "", quality_flag := "GOOD" }

/-- `SensorDAO.save_sensor_data`: gate on session validity, drop each
non-numeric candidate, return a zero count without writing when nothing
valid remains, otherwise insert all valid rows in one batch and return
the count. The result carries the count returned and the rows written. -/
def save_sensor_data (sessionValid : Bool) (sid : String)
    (data : List (String × SensorReading)) (now : Nat) :
    Except DaoError (Nat × List SensorRow) :=
  if !sessionValid then .error (.valueError "Sessao invalida ou nao esta ativa")
  else if data.isEmpty then .ok (0, [])
  else
    let batch := data.filterMap (fun p =>
      match extracted_value p.2 with
      | .num q => some (sensor_row sid p.1 now p.2 q)
      | _ => none)
    if batch.isEmpty then .ok (0, [])
    else .ok (batch.length, batch)

/-! ## Emissions batch DAO (`emissions_dao.py`, `save_emissions_data`)

The payload is a dict of scopes; under scope 1 sit category → source →
gas dicts, under other scopes source → gas dicts. The traversal inspects
at most four levels, so the payload is modelled by a four-level tree in
which every non-dict Python value at depth k is a `num` or `other` leaf;
deeper dicts appearing where a gas value is expected are non-numeric and
land in `other`. -/

/-- Depth-4 value (gas value under scope 1). -/
inductive Em4 where
  | num (q : ℚ)
  | other
deriving DecidableEq, Repr

/-- Depth-3 value: a gas value under scopes 2/3, or a gas dict under
scope 1. -/
inductive Em3 where
  | dict (entries : List (String × Em4))
  | num (q : ℚ)
  | other
deriving DecidableEq, Repr

/-- Depth-2 value: a source dict (scope 1) or gas dict (scopes 2/3). -/
inductive Em2 where
  | dict (entries : List (String × Em3))
  | num (q : ℚ)
  | other
deriving DecidableEq, Repr

/-- Depth-1 value: the value stored under a scope key. -/
inductive Em1 where
  | dict (entries : List (String × Em2))
  | num (q : ℚ)
  | other
deriving DecidableEq, Repr

/-- Numeric view of a depth-4 value. -/
def em4Num : Em4 → Option ℚ
  | .num q => some q
  | .other => none

/-- Numeric view of a depth-3 value. -/
def em3Num : Em3 → Option ℚ
  | .num q => some q
  | _ => none

/-- `EmissionsDAO.VALID_SCOPES`. -/
def VALID_SCOPES : List Nat := [1, 2, 3]

/-- `EmissionsDAO.VALID_GASES`. -/
def VALID_GASES : List String := ["CO2", "CH4", "N2O", "CO2e"]

/-- The scope number parse, int of scope_name with the word scope
removed; the Python `except ValueError`
that skips an unparsable name is the `none` case. Negative scope numbers
would also be skipped as invalid scopes, so a natural-number parse is
adequate. -/
def parse_scope (name : String) : Option Nat :=
  (name.replace "scope" "").toNat?

/-- A row of the `ghg_emissions` table (identity column omitted). -/
structure EmissionRow where
  session_id : String
  timestamp : Nat
  scope : Nat
  category : String
  source : String
  gas : String
  value : ℚ
  unit : String
  calculation_method : String
  uncertainty_percent : ℚ
deriving DecidableEq, Repr

/-- `EmissionsDAO._prepare_emission_records`: keep only known gases with a
numeric value, and refuse negative values for every gas except CO2. -/
def prepare_emission_records (sid : String) (now scope : Nat)
    (category source : String) (gases : List (String × Option ℚ)) :
    List EmissionRow :=
  gases.filterMap (fun g =>
    if g.1 ∈ VALID_GASES then
      match g.2 with
      | some v =>
          if v < 0 ∧ g.1 ≠ "CO2" then none
          else some { session_id := sid, timestamp := now, scope := scope,
                      category := category, source := source, gas := g.1,
                      value := v, unit := "kg", calculation_method := "tier1",
                      uncertainty_percent := 10 }
      | none => none
    else none)

/-- The candidate rows contributed by one scope entry of the payload. -/
def em_scope_rows (sid : String) (now : Nat) (scopeName : String) (v : Em1) :
    List EmissionRow :=
  match v with
  | .dict entries =>
      match parse_scope scopeName with
      | some n =>
          if n ∈ VALID_SCOPES then
            if n = 1 then
              (entries.map (fun c =>
                match c.2 with
                | Em2.dict srcs =>
                    (srcs.map (fun srcE =>
                      match srcE.2 with
                      | Em3.dict gases =>
                          prepare_emission_records sid now n c.1 srcE.1
                            (gases.map (fun g => (g.1, em4Num g.2)))
                      | _ => [])).flatten
                | _ => [])).flatten
            else
              (entries.map (fun srcE =>
                match srcE.2 with
                | Em2.dict gases =>
                    prepare_emission_records sid now n "" srcE.1
                      (gases.map (fun g => (g.1, em3Num g.2)))
                | _ => [])).flatten
          else []
      | none => []
  | _ => []

/-- `EmissionsDAO.save_emissions_data`. -/
def save_emissions_data (sessionValid : Bool) (sid : String)
    (payload : List (String × Em1)) (now : Nat) :
    Except DaoError (Nat × List EmissionRow) :=
  if !sessionValid then .error (.valueError "Sessao invalida ou nao esta ativa")
  else if payload.isEmpty then .ok (0, [])
  else
    let batch := (payload.map (fun p => em_scope_rows sid now p.1 p.2)).flatten
    if batch.isEmpty then .ok (0, [])
    else .ok (batch.length, batch)

/-! ## Carbon stock batch DAO (`carbon_stock_dao.py`, `save_carbon_stock_data`) -/

/-- `CarbonStockDAO.VALID_STOCK_TYPES`. -/
def VALID_STOCK_TYPES : List String :=
  ["soil_organic_carbon", "above_ground_biomass",
   "below_ground_biomass", "dead_organic_matter"]

/-- `CarbonStockDAO.VALID_MEASUREMENT_METHODS`. -/
def VALID_MEASUREMENT_METHODS : List String :=
  ["direct_sampling", "remote_sensing", "model_estimate", "default_factor"]

/-- The entry stored under one stock-type key when it is a dict. Absent
keys are `none` / `noneV`. -/
structure StockEntry where
  change_co2 : PyScalar
  amortization_period : Option PyScalar
  cause : Option String
  measurement_method : Option String
deriving DecidableEq, Repr

/-- The value stored under one stock-type key. -/
inductive StockVal where
  | d (e : StockEntry)
  | notDict
deriving DecidableEq, Repr

/-- Python `int(x)` on the scalars an amortization period can be: floats
truncate toward zero, strings parse as integers (`ValueError` otherwise),
`None` raises `TypeError`. -/
def py_int : PyScalar → Option Int
  | .num q => some (q.num / (q.den : Int))
  | .str s => s.toInt?
  | .noneV => none

/-- A row of the `carbon_stocks` table (identity column omitted). -/
structure CarbonRow where
  session_id : String
  timestamp : Nat
  stock_type : String
  change : ℚ
  amortization_period : Int
  unit : String
  measurement_method : String
deriving DecidableEq, Repr

/-- The amortization period stored for a candidate: default 20 for a
missing key, forced to 1 for combustion losses of biomass or dead organic
matter, truncated to an integer and clamped below at 1, falling back to
20 when the conversion raises. -/
def amortization_of (stockType : String) (change : ℚ) (e : StockEntry) : Int :=
  let amort0 : PyScalar := e.amortization_period.getD (.num 20)
  let amort1 : PyScalar :=
    if stockType ∈ ["above_ground_biomass", "dead_organic_matter"] ∧
        change < 0 ∧ e.cause = some "combustion" then .num 1
    else amort0
  match py_int amort1 with
  | some i => if i < 1 then 1 else i
  | none => 20

/-- The validation of one stock-type candidate; `none` when it is dropped. -/
def carbon_candidate (sid : String) (now : Nat) (stockType : String)
    (v : StockVal) : Option CarbonRow :=
  if stockType ∈ VALID_STOCK_TYPES then
    match v with
    | .notDict => none
    | .d e =>
        match e.change_co2 with
        | .num q =>
            let meas :=
              match e.measurement_method with
              | some m => if m ∈ VALID_MEASUREMENT_METHODS then m else "model_estimate"
              | none => "model_estimate"
            some { session_id := sid, timestamp := now, stock_type := stockType,
                   change := q, amortization_period := amortization_of stockType q e,
                   unit := "kg CO2", measurement_method := meas }
        | _ => none
  else none

/-- `CarbonStockDAO.save_carbon_stock_data`. -/
def save_carbon_stock_data (sessionValid : Bool) (sid : String)
    (payload : List (String × StockVal)) (now : Nat) :
    Except DaoError (Nat × List CarbonRow) :=
  if !sessionValid then .error (.valueError "Sessao invalida ou nao esta ativa")
  else if payload.isEmpty then .ok (0, [])
  else
    let batch := payload.filterMap (fun p => carbon_candidate sid now p.1 p.2)
    if batch.isEmpty then .ok (0, [])
    else .ok (batch.length, batch)

/-! ## Harvest loss DAO (`harvest_dao.py`, `save_harvest_loss_data`)

Unlike the other three DAOs this method stores a single record and raises
`ValueError` on invalid input instead of dropping candidates. -/

/-- `HarvestDAO.VALID_CONFIDENCE_LEVELS`. -/
def VALID_CONFIDENCE_LEVELS : List String := ["high", "medium", "low"]

/-- The fields of the `loss_data` dict that the validation touches.
Problematic factors and field conditions are serialized JSON blobs whose
contents are never validated; they are carried opaquely. -/
structure LossPayload where
  loss_estimate : PyScalar
  factors_json : String
  confidence_level : Option String
  field_conditions_json : String
deriving DecidableEq, Repr

/-- A row of the `harvest_losses` table (identity column omitted). -/
structure HarvestRow where
  session_id : String
  timestamp : Nat
  loss_percent : ℚ
  factors : String
  confidence_level : String
  field_conditions : String
deriving DecidableEq, Repr

/-- `HarvestDAO.save_harvest_loss_data`. The `Option` input models the
`if not loss_data` falsiness check (an empty dict). The result is the id
reported (the current maximum id) together with the rows written. -/
def save_harvest_loss_data (sessionValid : Bool) (sid : String)
    (d : Option LossPayload) (now : Nat) (nextId : Nat) :
    Except DaoError (Nat × List HarvestRow) :=
  if !sessionValid then .error (.valueError "Sessao invalida ou nao esta ativa")
  else
    match d with
    | none => .error (.valueError "Nenhum dado de perda fornecido para salvar")
    | some ld =>
        match ld.loss_estimate with
        | .noneV => .error (.valueError "Percentual de perda nao fornecido")
        | .str _ => .error (.valueError "Percentual de perda invalido")
        | .num q =>
            if q < 0 ∨ 100 < q then
              .error (.valueError "Percentual de perda fora da faixa valida")
            else
              let conf :=
                match ld.confidence_level with
                | some c => if c ∈ VALID_CONFIDENCE_LEVELS then c else "medium"
                | none => "medium"
              .ok (nextId,
                [{ session_id := sid, timestamp := now, loss_percent := q,
                   factors := ld.factors_json, confidence_level := conf,
                   field_conditions := ld.field_conditions_json }])

/-! ## Concrete sample data used by witnesses and counterexamples -/

/-- An active session row at version 1. -/
def sampleActiveRow : SessionRow :=
  { session_id := "s1", start_timestamp := 0, end_timestamp := none,
    status := "active", created_by := "system", last_updated := 0, version := 1 }

/-- The same session after a concurrent writer advanced it to version 2. -/
def sampleStaleRow : SessionRow :=
  { sampleActiveRow with status := "paused", last_updated := 5, version := 2 }

/-- A session already ended with status `completed` at version 2. -/
def sampleEndedRow : SessionRow :=
  { session_id := "s1", start_timestamp := 0, end_timestamp := some 10,
    status := "completed", created_by := "system", last_updated := 10,
    version := 2 }

/-- A store that already holds a `SESSIONS` table with five records. -/
def samplePreStore : OracleStore :=
  { tables := [("SESSIONS", 5)], indices := ["IDX_SENSOR_SESSION_TIME"] }

/-- A freshly created session row: active, no end timestamp, version 1. -/
def freshSessionRow (sid cb : String) (t0 : Nat) : SessionRow :=
  { session_id := sid, start_timestamp := t0, end_timestamp := none,
    status := "active", created_by := cb, last_updated := t0, version := 1 }

/-- The same session after a successful `end_session` with status
`completed`: end timestamp set, version 2. -/
def endedSessionRow (sid cb : String) (t0 e1 n1 : Nat) : SessionRow :=
  { freshSessionRow sid cb t0 with
      end_timestamp := some e1,
      status := "completed",
      last_updated := n1,
      version := 2 }

/-! ## Helper lemmas -/

/-- Recoverability is membership in the concatenated recoverable lists. -/
lemma is_recoverable_iff (c : Nat) :
    is_recoverable c = true ↔
      (c ∈ CONNECTION_ERRORS ∨ c ∈ RESOURCE_ERRORS ∨ c ∈ TIMEOUT_ERRORS) := by
  simp [is_recoverable, RECOVERABLE_ERRORS, List.mem_append, or_assoc]

/-- Full characterization of `get_category` and its agreement with the
recoverability flag. -/
lemma get_category_spec (c : Nat) :
    (get_category c = .CONNECTION ↔ c ∈ CONNECTION_ERRORS) ∧
    (get_category c = .RESOURCE ↔ c ∈ RESOURCE_ERRORS) ∧
    (get_category c = .CONSTRAINT ↔ c ∈ CONSTRAINT_ERRORS) ∧
    (get_category c = .PERMISSION ↔ c ∈ PERMISSION_ERRORS) ∧
    (get_category c = .TIMEOUT ↔ c ∈ TIMEOUT_ERRORS) ∧
    (get_category c = .UNKNOWN ↔
      (c ∉ CONNECTION_ERRORS ∧ c ∉ RESOURCE_ERRORS ∧ c ∉ CONSTRAINT_ERRORS ∧
       c ∉ PERMISSION_ERRORS ∧ c ∉ TIMEOUT_ERRORS)) ∧
    is_recoverable c = category_recoverable (get_category c) := by
  by_cases h1 : c ∈ CONNECTION_ERRORS <;>
  by_cases h2 : c ∈ RESOURCE_ERRORS <;>
  by_cases h3 : c ∈ CONSTRAINT_ERRORS <;>
  by_cases h4 : c ∈ PERMISSION_ERRORS <;>
  by_cases h5 : c ∈ TIMEOUT_ERRORS <;>
  simp_all [get_category, is_recoverable_iff, is_recoverable, RECOVERABLE_ERRORS,
    List.mem_append, category_recoverable, CONNECTION_ERRORS, RESOURCE_ERRORS,
    CONSTRAINT_ERRORS, PERMISSION_ERRORS, TIMEOUT_ERRORS] <;> omega

/-- A wrapped operation that returns normally on its first invocation is
invoked exactly once, whatever its return value. -/
lemma with_retry_run_ok (p : RetryPolicy) (op : Nat → Except PyExc α) (a : α)
    (h0 : op 0 = .ok a) (hmax : 1 ≤ p.max_attempts) :
    with_retry_run p op = (1, .ok a) := by
  unfold with_retry_run
  obtain ⟨f, hf⟩ : ∃ f, p.max_attempts = f + 1 := ⟨p.max_attempts - 1, by omega⟩
  rw [hf]
  simp [retry_loop, h0]

/-! ## Claim theorems -/

/-- C7. The error classifier maps a store-native error code into exactly
one category via the fixed code table, with every code outside the table
mapping to `UNKNOWN`; `CONNECTION`, `RESOURCE` and `TIMEOUT` are the
recoverable categories while `CONSTRAINT`, `PERMISSION` and `UNKNOWN` are
not; in particular the connection-refused code ORA-12541 classifies as
`CONNECTION` with recoverability, and the unique-constraint code ORA-00001
as `CONSTRAINT` without it. -/
theorem error_classifier_fixed_table :
    ∀ c : Nat,
      (get_category c = .CONNECTION ↔ c ∈ CONNECTION_ERRORS) ∧
      (get_category c = .RESOURCE ↔ c ∈ RESOURCE_ERRORS) ∧
      (get_category c = .CONSTRAINT ↔ c ∈ CONSTRAINT_ERRORS) ∧
      (get_category c = .PERMISSION ↔ c ∈ PERMISSION_ERRORS) ∧
      (get_category c = .TIMEOUT ↔ c ∈ TIMEOUT_ERRORS) ∧
      (get_category c = .UNKNOWN ↔
        (c ∉ CONNECTION_ERRORS ∧ c ∉ RESOURCE_ERRORS ∧ c ∉ CONSTRAINT_ERRORS ∧
         c ∉ PERMISSION_ERRORS ∧ c ∉ TIMEOUT_ERRORS)) ∧
      is_recoverable c = category_recoverable (get_category c) ∧
      (get_category 12541 = .CONNECTION ∧ is_recoverable 12541 = true) ∧
      (get_category 1 = .CONSTRAINT ∧ is_recoverable 1 = false) := by
  intro c
  refine ⟨(get_category_spec c).1, (get_category_spec c).2.1,
    (get_category_spec c).2.2.1, (get_category_spec c).2.2.2.1,
    (get_category_spec c).2.2.2.2.1, (get_category_spec c).2.2.2.2.2.1,
    (get_category_spec c).2.2.2.2.2.2, by decide, by decide⟩

/-- C8. The retry delay equals
`min(maxDelay, initialDelay * backoffFactor ^ attempt) * jitter`, and for
any jitter drawn from `[0.8, 1.2]` and nonnegative `maxDelay` it is
bounded above by `maxDelay * 1.2`. -/
theorem get_delay_formula_and_bound :
    ∀ (p : RetryPolicy) (attempt : Nat) (jitter : ℚ),
      (4 / 5 : ℚ) ≤ jitter → jitter ≤ (6 / 5 : ℚ) → 0 ≤ p.max_delay →
      get_delay p attempt jitter =
        min p.max_delay (p.initial_delay * p.backoff_factor ^ attempt) * jitter ∧
      get_delay p attempt jitter ≤ p.max_delay * (6 / 5 : ℚ) := by
  intro p attempt jitter hj1 hj2 hmd
  unfold get_delay
  constructor
  · rw [min_comm]
  · set d := min (p.initial_delay * p.backoff_factor ^ attempt) p.max_delay with hd
    have h1 : d ≤ p.max_delay := min_le_right _ _
    rcases le_total 0 d with h0 | h0
    · nlinarith
    · nlinarith

/-- Witness for C8 at the default policy, attempt 2, jitter 1. -/
theorem get_delay_formula_and_bound_witness :
    get_delay defaultRetryPolicy 2 1 =
      min defaultRetryPolicy.max_delay
        (defaultRetryPolicy.initial_delay * defaultRetryPolicy.backoff_factor ^ 2) * 1 ∧
    get_delay defaultRetryPolicy 2 1 ≤ defaultRetryPolicy.max_delay * (6 / 5 : ℚ) :=
  get_delay_formula_and_bound defaultRetryPolicy 2 1 (by norm_num) (by norm_num)
    (by norm_num [defaultRetryPolicy])

/-- C6. `should_retry` holds exactly when the attempt counter is below
`max_attempts` and the error is recoverable; consequently, with
`max_attempts = 3`, an operation that always raises a connection-category
Oracle error is invoked exactly 3 times and a single generalized failure
is then raised. -/
theorem should_retry_iff_and_exhaustion :
    (∀ (p : RetryPolicy) (e : OracleErrorInfo) (attempt : Nat),
      should_retry p e attempt = true ↔
        (attempt < p.max_attempts ∧ is_recoverable e.code = true)) ∧
    (∀ (α : Type) (p : RetryPolicy) (op : Nat → Except PyExc α) (c : Nat),
      p.max_attempts = 3 → (∀ k, op k = .error (.oracle c)) →
      get_category c = .CONNECTION →
      with_retry_run p op = (3, .generalized 3 c)) := by
  constructor
  · intro p e attempt
    unfold should_retry
    split
    · simp only [Bool.false_eq_true, false_iff, not_and]
      intro hlt
      omega
    · constructor
      · intro h
        exact ⟨by omega, h⟩
      · intro h
        exact h.2
  · intro α p op c hmax hop hcat
    have hmem : c ∈ CONNECTION_ERRORS := (get_category_spec c).1.mp hcat
    have hrec : is_recoverable c = true := (is_recoverable_iff c).mpr (Or.inl hmem)
    unfold with_retry_run
    rw [hmax]
    simp [retry_loop, hop, should_retry, hmax, hrec]

/-- Witness for C6: the default policy with an operation that always
raises ORA-12541 (connection refused). -/
theorem should_retry_iff_and_exhaustion_witness :
    with_retry_run defaultRetryPolicy
      ((fun _ => .error (.oracle 12541)) : Nat → Except PyExc Unit) =
      (3, .generalized 3 12541) :=
  should_retry_iff_and_exhaustion.2 Unit defaultRetryPolicy _ 12541 rfl
    (fun _ => rfl) (by decide)

/-- C9. In simulated mode `create_session` always raises: the existence
check reads `DummyCursor.fetchone`, which returns the truthy `[1]`, so the
duplicate-session `ValueError` fires for every metadata and generated id,
contradicting the stub-mode contract that every operation succeeds. -/
theorem create_session_simulated_always_raises :
    ∀ (metaSid createdBy : Option String) (generated : String) (now : Nat),
      create_session ConnMode.simulated metaSid createdBy generated now =
        .error (.valueError "Sessao ja existe") := by
  intro metaSid createdBy generated now
  rfl

/-- C10. A non-empty caller-supplied `session_id` in the metadata is used
verbatim; the generated time-ordered id is used exactly when the key is
absent or empty (or coincides with the generated id itself). -/
theorem caller_session_id_used_verbatim :
    ∀ (metaSid : Option String) (timeStr uuidStr : String),
      (∀ s, metaSid = some s → s ≠ "" →
        choose_session_id metaSid (generate_session_id timeStr uuidStr) = s) ∧
      (metaSid = none →
        choose_session_id metaSid (generate_session_id timeStr uuidStr) =
          generate_session_id timeStr uuidStr) ∧
      (choose_session_id metaSid (generate_session_id timeStr uuidStr) =
          generate_session_id timeStr uuidStr →
        metaSid = none ∨ metaSid = some "" ∨
          metaSid = some (generate_session_id timeStr uuidStr)) := by
  intro metaSid timeStr uuidStr
  match metaSid with
  | none => exact ⟨(fun s h => by cases h), (fun _ => rfl), (fun _ => Or.inl rfl)⟩
  | some s =>
      refine ⟨?_, ?_, ?_⟩
      · intro t ht hne
        cases ht
        simp [choose_session_id, hne]
      · intro h
        cases h
      · intro h
        by_cases hs : s = ""
        · exact Or.inr (Or.inl (by rw [hs]))
        · simp only [choose_session_id, if_neg hs] at h
          exact Or.inr (Or.inr (by rw [h]))

/-- Witness for C10: the caller-supplied id `client-id` is returned as is. -/
theorem caller_session_id_used_verbatim_witness :
    choose_session_id (some "client-id")
      (generate_session_id "20250410-120000" "a1b2c3d4e5") = "client-id" :=
  (caller_session_id_used_verbatim (some "client-id") "20250410-120000"
    "a1b2c3d4e5").1 "client-id" rfl (by decide)

/-- C2 counterexample. `update_status` performs no terminal-status check:
on a session already ended with status `completed` (version 2) it succeeds,
returning true and rewriting the status while the end timestamp stays set. -/
theorem update_status_succeeds_on_ended_session :
    update_status [sampleEndedRow] [sampleEndedRow] "s1" "active" 11 =
      .ok (true, [{ sampleEndedRow with
                      status := "active",
                      last_updated := 11,
                      version := 3 }]) := by
  rfl

/-- C2 amended. The terminal check lives in `end_session` only: ending a
session whose status is already `completed`/`aborted` (or whose end
timestamp is set) returns false, and ending a fresh active session twice
returns true (version becoming 2) then false; `update_status` performs no
such check. -/
theorem end_session_terminal_and_double_end :
    (∀ (readDb updDb : SessionDB) (sid status : String) (endTs now : Nat)
        (row : SessionRow),
      status ∈ END_STATUSES →
      find_session readDb sid = some row →
      (row.status ∈ END_STATUSES ∨ row.end_timestamp.isSome = true) →
      end_session readDb updDb sid status endTs now = .ok (false, updDb)) ∧
    (∀ (sid cb : String) (t0 e1 n1 e2 n2 : Nat),
      end_session [freshSessionRow sid cb t0] [freshSessionRow sid cb t0]
          sid "completed" e1 n1 =
        .ok (true, [endedSessionRow sid cb t0 e1 n1]) ∧
      end_session [endedSessionRow sid cb t0 e1 n1]
          [endedSessionRow sid cb t0 e1 n1] sid "completed" e2 n2 =
        .ok (false, [endedSessionRow sid cb t0 e1 n1])) := by
  constructor
  · intro readDb updDb sid status endTs now row hst hfind hterm
    have hcond : row.end_timestamp.isSome = true ∨ row.status ∈ END_STATUSES := by
      tauto
    simp [end_session, hst, hfind, hcond]
  · intro sid cb t0 e1 n1 e2 n2
    constructor
    · simp [end_session, find_session, List.find?, sql_end_session,
        END_STATUSES, freshSessionRow, endedSessionRow]
    · simp [end_session, find_session, List.find?, END_STATUSES,
        freshSessionRow, endedSessionRow]

/-- Witness for the amended C2: ending the already-completed sample row
again returns false. -/
theorem end_session_terminal_and_double_end_witness :
    end_session [sampleEndedRow] [sampleEndedRow] "s1" "aborted" 12 13 =
      .ok (false, [sampleEndedRow]) :=
  end_session_terminal_and_double_end.1 [sampleEndedRow] [sampleEndedRow]
    "s1" "aborted" 12 13 sampleEndedRow (by decide) (by decide)
    (Or.inl (by decide))

/-- Every row produced by the `update_status` SQL statement is either an
untouched row or a matched row (same id, the read version) updated with
the version incremented. -/
lemma mem_sql_update_status (db : SessionDB) (sid status : String)
    (now v : Nat) (r : SessionRow)
    (hr : r ∈ (sql_update_status db sid status now v).2) :
    r ∈ db ∨ ∃ r0, r0 ∈ db ∧ r0.session_id = sid ∧ r0.version = v ∧
      r = { r0 with
              status := status,
              last_updated := now,
              version := v + 1 } := by
  simp only [sql_update_status, List.mem_map] at hr
  obtain ⟨r0, hr0, heq⟩ := hr
  by_cases hc : (r0.session_id == sid && r0.version == v) = true
  · right
    have hc2 := hc
    simp only [Bool.and_eq_true, beq_iff_eq] at hc2
    obtain ⟨h1, h2⟩ := hc2
    refine ⟨r0, hr0, h1, h2, ?_⟩
    rw [← heq, if_pos hc, h2]
  · left
    rw [← heq, if_neg hc]
    exact hr0

/-- Every row produced by the `end_session` SQL statement is either an
untouched row or a matched row updated with the end timestamp set and the
version incremented. -/
lemma mem_sql_end_session (db : SessionDB) (sid status : String)
    (endTs now v : Nat) (r : SessionRow)
    (hr : r ∈ (sql_end_session db sid status endTs now v).2) :
    r ∈ db ∨ ∃ r0, r0 ∈ db ∧ r0.session_id = sid ∧ r0.version = v ∧
      r = { r0 with
              end_timestamp := some endTs,
              status := status,
              last_updated := now,
              version := v + 1 } := by
  simp only [sql_end_session, List.mem_map] at hr
  obtain ⟨r0, hr0, heq⟩ := hr
  by_cases hc : (r0.session_id == sid && r0.version == v) = true
  · right
    have hc2 := hc
    simp only [Bool.and_eq_true, beq_iff_eq] at hc2
    obtain ⟨h1, h2⟩ := hc2
    refine ⟨r0, hr0, h1, h2, ?_⟩
    rw [← heq, if_pos hc, h2]
  · left
    rw [← heq, if_neg hc]
    exact hr0

/-- C1. Both lifecycle writes are conditional on the version read from the
current row — the SQL statement touches exactly the rows matching the id
and the read version, setting the version to that value plus one — and
whenever the conditional update affects zero rows the call returns false
with the store untouched, and the surrounding retry wrapper invokes the
operation exactly once: a version conflict is never retried. -/
theorem conflict_returns_false_without_retry :
    ∀ (p : RetryPolicy) (readDb updDb : SessionDB) (sid status : String)
      (now endTs : Nat) (row : SessionRow),
      1 ≤ p.max_attempts →
      find_session readDb sid = some row →
      ((status ∈ VALID_STATUSES →
        (∀ r, r ∈ (sql_update_status updDb sid status now row.version).2 →
          r ∈ updDb ∨ ∃ r0, r0 ∈ updDb ∧ r0.session_id = sid ∧
            r0.version = row.version ∧
            r = { r0 with
                    status := status,
                    last_updated := now,
                    version := row.version + 1 }) ∧
        ((sql_update_status updDb sid status now row.version).1 = 0 →
          update_status readDb updDb sid status now = .ok (false, updDb) ∧
          with_retry_run p
            (fun _ => daoToPy (update_status readDb updDb sid status now)) =
            (1, .ok (false, updDb)))) ∧
      (status ∈ END_STATUSES → row.end_timestamp = none →
        row.status ∉ END_STATUSES →
        (∀ r, r ∈ (sql_end_session updDb sid status endTs now row.version).2 →
          r ∈ updDb ∨ ∃ r0, r0 ∈ updDb ∧ r0.session_id = sid ∧
            r0.version = row.version ∧
            r = { r0 with
                    end_timestamp := some endTs,
                    status := status,
                    last_updated := now,
                    version := row.version + 1 }) ∧
        ((sql_end_session updDb sid status endTs now row.version).1 = 0 →
          end_session readDb updDb sid status endTs now = .ok (false, updDb) ∧
          with_retry_run p
            (fun _ => daoToPy (end_session readDb updDb sid status endTs now)) =
            (1, .ok (false, updDb))))) := by
  intro p readDb updDb sid status now endTs row hmax hfind
  constructor
  · intro hst
    constructor
    · intro r hr
      exact mem_sql_update_status updDb sid status now row.version r hr
    · intro hzero
      have hupd : update_status readDb updDb sid status now = .ok (false, updDb) := by
        simp [update_status, hst, hfind, hzero]
      refine ⟨hupd, with_retry_run_ok p _ _ ?_ hmax⟩
      rw [hupd]
      rfl
  · intro hst hend hterm
    constructor
    · intro r hr
      exact mem_sql_end_session updDb sid status endTs now row.version r hr
    · intro hzero
      have hupd : end_session readDb updDb sid status endTs now = .ok (false, updDb) := by
        simp [end_session, hst, hfind, hend, hterm, hzero]
      refine ⟨hupd, with_retry_run_ok p _ _ ?_ hmax⟩
      rw [hupd]
      rfl

/-- Witness for C1: a stale read (version 1) against a store already at
version 2 affects zero rows, returns false and is invoked exactly once by
the retry wrapper. -/
theorem conflict_returns_false_without_retry_witness :
    update_status [sampleActiveRow] [sampleStaleRow] "s1" "paused" 7 =
      .ok (false, [sampleStaleRow]) ∧
    with_retry_run defaultRetryPolicy
      (fun _ => daoToPy (update_status [sampleActiveRow] [sampleStaleRow] "s1" "paused" 7)) =
      (1, .ok (false, [sampleStaleRow])) :=
  ((conflict_returns_false_without_retry defaultRetryPolicy [sampleActiveRow]
      [sampleStaleRow] "s1" "paused" 7 0 sampleActiveRow (by decide) rfl).1
    (by decide)).2 rfl

/-- With a valid session, `save_sensor_data` always returns the batch of
valid rows together with its length, in every branch. -/
lemma save_sensor_eq (sid : String) (data : List (String × SensorReading))
    (now : Nat) :
    save_sensor_data true sid data now =
      .ok ((data.filterMap (fun p =>
          match extracted_value p.2 with
          | .num q => some (sensor_row sid p.1 now p.2 q)
          | _ => none)).length,
        data.filterMap (fun p =>
          match extracted_value p.2 with
          | .num q => some (sensor_row sid p.1 now p.2 q)
          | _ => none)) := by
  unfold save_sensor_data
  by_cases hemp : data.isEmpty
  · have hnil : data = [] := by simpa using hemp
    subst hnil
    rfl
  · simp only [hemp, Bool.not_true, if_false, Bool.false_eq_true]
    by_cases hb : (data.filterMap (fun p =>
        match extracted_value p.2 with
        | .num q => some (sensor_row sid p.1 now p.2 q)
        | _ => none)).isEmpty
    · have hnil := List.isEmpty_iff.mp hb
      rw [if_pos hb, hnil]
      rfl
    · rw [if_neg hb]

/-- The number of valid rows equals the number of numeric-valued
candidates. -/
lemma sensor_filterMap_length (sid : String) (now : Nat)
    (data : List (String × SensorReading)) :
    (data.filterMap (fun p =>
        match extracted_value p.2 with
        | .num q => some (sensor_row sid p.1 now p.2 q)
        | _ => none)).length =
      (data.filter (fun p => is_numeric (extracted_value p.2))).length := by
  induction data with
  | nil => rfl
  | cons x xs ih =>
      cases hx : extracted_value x.2 <;>
        simp [List.filterMap_cons, List.filter_cons, hx, is_numeric, ih]

/-- C5. For every sensor payload, `save_sensor_data` inserts exactly one
row per numeric-valued candidate and returns that count; in particular a
payload holding the numeric reading 25.5 and the string reading `abc`
stores one row and returns 1. -/
theorem save_sensor_batch_count :
    (∀ (sid : String) (data : List (String × SensorReading)) (now : Nat),
      ∃ rows,
        save_sensor_data true sid data now =
          .ok ((data.filter (fun p => is_numeric (extracted_value p.2))).length,
            rows) ∧
        rows.length =
          (data.filter (fun p => is_numeric (extracted_value p.2))).length) ∧
    save_sensor_data true "sess-1"
      [("temperature", SensorReading.num (51 / 2)), ("bogus", SensorReading.str "abc")]
      0 =
      .ok (1, [{ session_id := "sess-1", timestamp := 0,
                 sensor_type := "temperature", sensor_value := 51 / 2,
                 unit := "", quality_flag := "GOOD" }]) := by
  constructor
  · intro sid data now
    refine ⟨data.filterMap (fun p =>
        match extracted_value p.2 with
        | .num q => some (sensor_row sid p.1 now p.2 q)
        | _ => none), ?_, ?_⟩
    · rw [save_sensor_eq, sensor_filterMap_length]
    · rw [sensor_filterMap_length]
  · rfl

/-- With a valid session, `save_emissions_data` always returns the flattened
batch of valid rows together with its length. -/
lemma save_emissions_eq (sid : String) (payload : List (String × Em1))
    (now : Nat) :
    save_emissions_data true sid payload now =
      .ok (((payload.map (fun p => em_scope_rows sid now p.1 p.2)).flatten).length,
        (payload.map (fun p => em_scope_rows sid now p.1 p.2)).flatten) := by
  unfold save_emissions_data
  by_cases hemp : payload.isEmpty
  · have hnil : payload = [] := by simpa using hemp
    subst hnil
    rfl
  · simp only [hemp, Bool.not_true, if_false, Bool.false_eq_true]
    by_cases hb : ((payload.map (fun p => em_scope_rows sid now p.1 p.2)).flatten).isEmpty
    · have hnil := List.isEmpty_iff.mp hb
      rw [if_pos hb, hnil]
      rfl
    · rw [if_neg hb]

/-- With a valid session, `save_carbon_stock_data` always returns the
batch of valid rows together with its length. -/
lemma save_carbon_eq (sid : String) (payload : List (String × StockVal))
    (now : Nat) :
    save_carbon_stock_data true sid payload now =
      .ok ((payload.filterMap (fun p => carbon_candidate sid now p.1 p.2)).length,
        payload.filterMap (fun p => carbon_candidate sid now p.1 p.2)) := by
  unfold save_carbon_stock_data
  by_cases hemp : payload.isEmpty
  · have hnil : payload = [] := by simpa using hemp
    subst hnil
    rfl
  · simp only [hemp, Bool.not_true, if_false, Bool.false_eq_true]
    by_cases hb : (payload.filterMap (fun p => carbon_candidate sid now p.1 p.2)).isEmpty
    · have hnil := List.isEmpty_iff.mp hb
      rw [if_pos hb, hnil]
      rfl
    · rw [if_neg hb]

/-- C4 counterexample. The harvest-loss DAO does not drop an invalid
candidate: a non-numeric loss percentage makes the whole call raise
`ValueError` instead of returning a zero-count success. -/
theorem harvest_invalid_candidate_raises :
    save_harvest_loss_data true "s1"
      (some { loss_estimate := .str "abc", factors_json := "",
              confidence_level := none, field_conditions_json := "" }) 0 1 =
      .error (.valueError "Percentual de perda invalido") := by
  rfl

/-- C4 amended. For the sensor, emissions and carbon-stock DAOs, candidate
rows are validated independently: a valid session never sees the batch
call fail, the returned count is exactly the number of rows written,
removing an invalid candidate never changes the result, and zero valid
candidates yield a zero-count success with no row written. The harvest
DAO instead stores a single record and raises `ValueError` on a
non-numeric loss percentage. -/
theorem batch_daos_drop_invalid_candidates :
    (∀ (sid : String) (data : List (String × SensorReading)) (now : Nat),
      ∃ n rows, save_sensor_data true sid data now = .ok (n, rows) ∧
        n = rows.length) ∧
    (∀ (sid : String) (pre post : List (String × SensorReading))
        (c : String × SensorReading) (now : Nat),
      is_numeric (extracted_value c.2) = false →
      save_sensor_data true sid (pre ++ c :: post) now =
        save_sensor_data true sid (pre ++ post) now) ∧
    (∀ (sid : String) (data : List (String × SensorReading)) (now : Nat),
      (∀ c ∈ data, is_numeric (extracted_value c.2) = false) →
      save_sensor_data true sid data now = .ok (0, [])) ∧
    (∀ (sid : String) (payload : List (String × Em1)) (now : Nat),
      ∃ n rows, save_emissions_data true sid payload now = .ok (n, rows) ∧
        n = rows.length) ∧
    (∀ (sid : String) (pre post : List (String × Em1)) (e : String × Em1)
        (now : Nat),
      em_scope_rows sid now e.1 e.2 = [] →
      save_emissions_data true sid (pre ++ e :: post) now =
        save_emissions_data true sid (pre ++ post) now) ∧
    (∀ (sid : String) (payload : List (String × Em1)) (now : Nat),
      (∀ e ∈ payload, em_scope_rows sid now e.1 e.2 = []) →
      save_emissions_data true sid payload now = .ok (0, [])) ∧
    (∀ (sid : String) (payload : List (String × StockVal)) (now : Nat),
      ∃ n rows, save_carbon_stock_data true sid payload now = .ok (n, rows) ∧
        n = rows.length) ∧
    (∀ (sid : String) (pre post : List (String × StockVal))
        (c : String × StockVal) (now : Nat),
      carbon_candidate sid now c.1 c.2 = none →
      save_carbon_stock_data true sid (pre ++ c :: post) now =
        save_carbon_stock_data true sid (pre ++ post) now) ∧
    (∀ (sid : String) (payload : List (String × StockVal)) (now : Nat),
      (∀ c ∈ payload, carbon_candidate sid now c.1 c.2 = none) →
      save_carbon_stock_data true sid payload now = .ok (0, [])) ∧
    (∀ (sid s fj fc : String) (cl : Option String) (now nextId : Nat),
      save_harvest_loss_data true sid
        (some { loss_estimate := .str s, factors_json := fj,
                confidence_level := cl, field_conditions_json := fc })
        now nextId =
        .error (.valueError "Percentual de perda invalido")) := by
  refine ⟨?_, ?_, ?_, ?_, ?_, ?_, ?_, ?_, ?_, ?_⟩
  · intro sid data now
    exact ⟨_, _, save_sensor_eq sid data now, rfl⟩
  · intro sid pre post c now hc
    rw [save_sensor_eq, save_sensor_eq]
    have hcnone : (match extracted_value c.2 with
        | PyScalar.num q => some (sensor_row sid c.1 now c.2 q)
        | _ => none) = (none : Option SensorRow) := by
      cases hx : extracted_value c.2 <;> simp_all [is_numeric]
    simp [List.filterMap_append, List.filterMap_cons, hcnone]
  · intro sid data now hall
    rw [save_sensor_eq]
    have hnil : data.filterMap (fun p =>
        match extracted_value p.2 with
        | PyScalar.num q => some (sensor_row sid p.1 now p.2 q)
        | _ => none) = [] := by
      refine List.filterMap_eq_nil_iff.mpr ?_
      intro a ha
      have := hall a ha
      cases hx : extracted_value a.2 <;> simp_all [is_numeric]
    rw [hnil]
    rfl
  · intro sid payload now
    exact ⟨_, _, save_emissions_eq sid payload now, rfl⟩
  · intro sid pre post e now he
    rw [save_emissions_eq, save_emissions_eq]
    simp [List.map_append, List.flatten_append, he]
  · intro sid payload now hall
    rw [save_emissions_eq]
    have hnil : (payload.map (fun p => em_scope_rows sid now p.1 p.2)).flatten = [] := by
      refine List.flatten_eq_nil_iff.mpr ?_
      intro l hl
      obtain ⟨e, he, rfl⟩ := List.mem_map.mp hl
      exact hall e he
    rw [hnil]
    rfl
  · intro sid payload now
    exact ⟨_, _, save_carbon_eq sid payload now, rfl⟩
  · intro sid pre post c now hc
    rw [save_carbon_eq, save_carbon_eq]
    simp [List.filterMap_append, List.filterMap_cons, hc]
  · intro sid payload now hall
    rw [save_carbon_eq]
    have hnil : payload.filterMap (fun p => carbon_candidate sid now p.1 p.2) = [] :=
      List.filterMap_eq_nil_iff.mpr (fun a ha => hall a ha)
    rw [hnil]
    rfl
  · intro sid s fj fc cl now nextId
    rfl

/-- Witness for the amended C4: a sensor payload whose single candidate is
the string `abc` yields a zero-count success writing nothing. -/
theorem batch_daos_drop_invalid_candidates_witness :
    save_sensor_data true "s1" [("bogus", SensorReading.str "abc")] 0 = .ok (0, []) :=
  batch_daos_drop_invalid_candidates.2.2.1 "s1" [("bogus", SensorReading.str "abc")] 0
    (by intro c hc; simp at hc; rw [hc]; rfl)

/-- Creating one table preserves every existing table row. -/
lemma mem_tables_create_table_if_absent {t : String × Nat} (s : OracleStore)
    (n : String) (h : t ∈ s.tables) : t ∈ (create_table_if_absent s n).tables := by
  unfold create_table_if_absent
  split
  · exact h
  · exact List.mem_append_left _ h

/-- Creating tables preserves every existing table row. -/
lemma mem_tables_foldl_create {t : String × Nat} (names : List String)
    (s : OracleStore) (h : t ∈ s.tables) :
    t ∈ (names.foldl create_table_if_absent s).tables := by
  induction names generalizing s with
  | nil => exact h
  | cons m ms ih =>
      exact ih (create_table_if_absent s m) (mem_tables_create_table_if_absent s m h)

/-- Creating tables never touches the indices. -/
lemma indices_foldl_create (names : List String) (s : OracleStore) :
    (names.foldl create_table_if_absent s).indices = s.indices := by
  induction names generalizing s with
  | nil => rfl
  | cons m ms ih =>
      rw [List.foldl_cons, ih]
      unfold create_table_if_absent
      split <;> rfl

/-- Creating indices never touches the tables. -/
lemma tables_foldl_index (names : List String) (s : OracleStore) :
    (names.foldl create_index_if_absent s).tables = s.tables := by
  induction names generalizing s with
  | nil => rfl
  | cons m ms ih =>
      rw [List.foldl_cons, ih]
      unfold create_index_if_absent
      split <;> rfl

/-- The effect of one `CREATE TABLE` on table existence. -/
lemma has_table_create_table_if_absent (s : OracleStore) (m n : String) :
    has_table (create_table_if_absent s m) n = (has_table s n || (m == n)) := by
  unfold create_table_if_absent
  split
  · rename_i h
    by_cases hmn : m = n
    · subst hmn
      simp [h]
    · simp [hmn]
  · simp [has_table, List.any_append]

/-- Table existence after a create fold: the table existed before or is
among the created names. -/
lemma has_table_foldl (names : List String) (s : OracleStore) (n : String) :
    has_table (names.foldl create_table_if_absent s) n =
      (has_table s n || names.any (fun m => m == n)) := by
  induction names generalizing s with
  | nil => simp
  | cons m ms ih =>
      rw [List.foldl_cons, ih, has_table_create_table_if_absent]
      simp [Bool.or_assoc]

/-- Every table row after a create fold either existed before or is one
of the created names, fresh and empty. -/
lemma mem_tables_foldl_inv {t : String × Nat} (names : List String)
    (s : OracleStore)
    (h : t ∈ (names.foldl create_table_if_absent s).tables) :
    t ∈ s.tables ∨ (t.1 ∈ names ∧ t.2 = 0 ∧ has_table s t.1 = false) := by
  induction names generalizing s with
  | nil => exact Or.inl h
  | cons m ms ih =>
      rcases ih (create_table_if_absent s m) h with h1 | ⟨h1, h2, h3⟩
      · unfold create_table_if_absent at h1
        split at h1
        · exact Or.inl h1
        · rename_i habs
          rcases List.mem_append.mp h1 with h2 | h2
          · exact Or.inl h2
          · have ht : t = (m, 0) := by simpa using h2
            refine Or.inr ⟨?_, ?_, ?_⟩
            · rw [ht]; exact List.mem_cons_self _ _
            · rw [ht]
            · rw [ht]
              simpa using habs
      · refine Or.inr ⟨List.mem_cons_of_mem _ h1, h2, ?_⟩
        rw [has_table_create_table_if_absent] at h3
        exact (Bool.or_eq_false_iff.mp h3).1

/-- Index membership after an index fold. -/
lemma mem_indices_foldl_index (names : List String) (s : OracleStore)
    (ix : String) :
    ix ∈ (names.foldl create_index_if_absent s).indices ↔
      (ix ∈ s.indices ∨ ix ∈ names) := by
  induction names generalizing s with
  | nil => simp
  | cons m ms ih =>
      rw [List.foldl_cons, ih]
      unfold create_index_if_absent
      split
      · rename_i hc
        constructor
        · rintro (h | h)
          · exact Or.inl h
          · exact Or.inr (List.mem_cons_of_mem _ h)
        · rintro (h | h)
          · exact Or.inl h
          · rcases List.mem_cons.mp h with rfl | h
            · exact Or.inl (by simpa using hc)
            · exact Or.inr h
      · constructor
        · rintro (h | h)
          · rcases List.mem_append.mp h with h1 | h1
            · exact Or.inl h1
            · have : ix = m := by simpa using h1
              exact Or.inr (this ▸ List.mem_cons_self _ _)
          · exact Or.inr (List.mem_cons_of_mem _ h)
        · rintro (h | h)
          · exact Or.inl (List.mem_append_left _ h)
          · rcases List.mem_cons.mp h with rfl | h1
            · exact Or.inl (List.mem_append_right _ (by simp))
            · exact Or.inr h1

/-- A create fold over tables that all exist is a no-op. -/
lemma foldl_create_id (names : List String) (s : OracleStore)
    (h : ∀ n ∈ names, has_table s n = true) :
    names.foldl create_table_if_absent s = s := by
  induction names with
  | nil => rfl
  | cons m ms ih =>
      rw [List.foldl_cons]
      have hm : create_table_if_absent s m = s := by
        unfold create_table_if_absent
        rw [if_pos (h m (List.mem_cons_self _ _))]
      rw [hm]
      exact ih (fun n hn => h n (List.mem_cons_of_mem _ hn))

/-- An index fold over indices that all exist is a no-op. -/
lemma foldl_index_id (names : List String) (s : OracleStore)
    (h : ∀ n ∈ names, n ∈ s.indices) :
    names.foldl create_index_if_absent s = s := by
  induction names with
  | nil => rfl
  | cons m ms ih =>
      rw [List.foldl_cons]
      have hm : create_index_if_absent s m = s := by
        unfold create_index_if_absent
        rw [if_pos ?_]
        exact List.elem_iff.mpr (h m (List.mem_cons_self _ _))
      rw [hm]
      exact ih (fun n hn => h n (List.mem_cons_of_mem _ hn))

/-- Normal form of `create_tables`: since `sessions` is either present or
about to be created, the dependent tables are always processed. -/
lemma create_tables_unfold (s : OracleStore) :
    (create_tables s).2 =
      CONNECTOR_INDICES.foldl create_index_if_absent
        (((if has_table s "SESSIONS" then [] else ["SESSIONS"]) ++
          DEPENDENT_TABLES.filter (fun t => !(has_table s t))).foldl
            create_table_if_absent s) := by
  unfold create_tables
  by_cases h : has_table s "SESSIONS" <;>
    simp [h, List.mem_filter, FIVE_TABLES]

/-- `create_tables` always reports success. -/
lemma create_tables_fst (s : OracleStore) : (create_tables s).1 = true := rfl

/-- The dependent tables are among the five fixed tables. -/
lemma dependent_subset_five : ∀ a ∈ DEPENDENT_TABLES, a ∈ FIVE_TABLES := by
  intro a ha
  rcases (by simpa [DEPENDENT_TABLES] using ha :
      a = "SENSOR_DATA" ∨ a = "GHG_EMISSIONS" ∨ a = "CARBON_STOCKS" ∨
        a = "HARVEST_LOSSES") with rfl | rfl | rfl | rfl <;>
    simp [FIVE_TABLES]

/-- C3 counterexample. `SchemaInitializer.create_schema` is destructive:
on a store whose `SESSIONS` table holds 5 records, it drops the table and
recreates it empty, so the records are deleted. -/
theorem create_schema_drops_existing_table :
    table_rows samplePreStore "SESSIONS" = some 5 ∧
    table_rows (create_schema samplePreStore).2 "SESSIONS" = some 0 := by
  constructor <;> rfl

/-- C3 amended. `OracleConnector.create_tables` satisfies the claim: it
never deletes tables, records or indices, creates exactly the missing
objects among the five fixed tables (fresh and empty) plus the fixed
indices, treats existing objects as success, and a second run is a
no-op reporting success. `SchemaInitializer.create_schema` instead drops
every existing table among the five before recreating them. -/
theorem create_tables_idempotent_nondestructive :
    ∀ s : OracleStore,
      (∀ t, t ∈ s.tables → t ∈ (create_tables s).2.tables) ∧
      (∀ ix, ix ∈ s.indices → ix ∈ (create_tables s).2.indices) ∧
      (∀ n, n ∈ FIVE_TABLES → has_table (create_tables s).2 n = true) ∧
      (∀ t, t ∈ (create_tables s).2.tables →
        t ∈ s.tables ∨ (t.1 ∈ FIVE_TABLES ∧ t.2 = 0 ∧ has_table s t.1 = false)) ∧
      (∀ ix, ix ∈ (create_tables s).2.indices →
        ix ∈ s.indices ∨ ix ∈ CONNECTOR_INDICES) ∧
      create_tables ((create_tables s).2) = (true, (create_tables s).2) := by
  intro s
  have hnf := create_tables_unfold s
  set toCreate := (if has_table s "SESSIONS" then [] else ["SESSIONS"]) ++
    DEPENDENT_TABLES.filter (fun t => !(has_table s t)) with htc
  set s1 := toCreate.foldl create_table_if_absent s with hs1
  have htab : ((create_tables s).2).tables = s1.tables := by
    rw [hnf, tables_foldl_index]
  have hind : ∀ ix, ix ∈ ((create_tables s).2).indices ↔
      (ix ∈ s.indices ∨ ix ∈ CONNECTOR_INDICES) := by
    intro ix
    rw [hnf, mem_indices_foldl_index, indices_foldl_create]
  have h1 : ∀ t, t ∈ s.tables → t ∈ (create_tables s).2.tables := by
    intro t ht
    rw [htab]
    exact mem_tables_foldl_create toCreate s ht
  have h2 : ∀ ix, ix ∈ s.indices → ix ∈ (create_tables s).2.indices := by
    intro ix hix
    exact (hind ix).mpr (Or.inl hix)
  have h3 : ∀ n, n ∈ FIVE_TABLES → has_table (create_tables s).2 n = true := by
    intro n hn
    have hh : has_table (create_tables s).2 n = has_table s1 n := by
      unfold has_table
      rw [htab]
    rw [hh, hs1, has_table_foldl]
    by_cases hx : has_table s n
    · simp [hx]
    · simp only [hx, Bool.false_or]
      refine List.any_eq_true.mpr ⟨n, ?_, by simp⟩
      rw [htc]
      rcases (by simpa [FIVE_TABLES] using hn :
          n = "SESSIONS" ∨ n = "SENSOR_DATA" ∨ n = "GHG_EMISSIONS" ∨
            n = "CARBON_STOCKS" ∨ n = "HARVEST_LOSSES") with
        rfl | rfl | rfl | rfl | rfl
      · exact List.mem_append_left _ (by simp [hx])
      all_goals
        exact List.mem_append_right _
          (List.mem_filter.mpr ⟨by simp [DEPENDENT_TABLES], by simp [hx]⟩)
  have h4 : ∀ t, t ∈ (create_tables s).2.tables →
      t ∈ s.tables ∨ (t.1 ∈ FIVE_TABLES ∧ t.2 = 0 ∧ has_table s t.1 = false) := by
    intro t ht
    rw [htab, hs1] at ht
    rcases mem_tables_foldl_inv toCreate s ht with h | ⟨hin, hz, habs⟩
    · exact Or.inl h
    · refine Or.inr ⟨?_, hz, habs⟩
      rw [htc] at hin
      rcases List.mem_append.mp hin with h | h
      · split at h
        · cases h
        · have : t.1 = "SESSIONS" := by simpa using h
          rw [this]
          simp [FIVE_TABLES]
      · exact dependent_subset_five _ (List.mem_filter.mp h).1
  have h5 : ∀ ix, ix ∈ (create_tables s).2.indices →
      ix ∈ s.indices ∨ ix ∈ CONNECTOR_INDICES := by
    intro ix hix
    exact (hind ix).mp hix
  have h6 : create_tables ((create_tables s).2) = (true, (create_tables s).2) := by
    have hsnd : (create_tables ((create_tables s).2)).2 = (create_tables s).2 := by
      rw [create_tables_unfold ((create_tables s).2)]
      have hS : has_table (create_tables s).2 "SESSIONS" = true :=
        h3 "SESSIONS" (by simp [FIVE_TABLES])
      have hdep : DEPENDENT_TABLES.filter
          (fun t => !(has_table (create_tables s).2 t)) = [] := by
        refine List.filter_eq_nil_iff.mpr ?_
        intro a ha
        rw [h3 a (dependent_subset_five a ha)]
        simp
      rw [hS, hdep]
      simp only [if_true, List.nil_append, List.foldl_nil]
      refine foldl_index_id _ _ ?_
      intro n hn
      exact (hind n).mpr (Or.inr hn)
    exact Prod.ext_iff.mpr ⟨create_tables_fst _, hsnd⟩
  exact ⟨h1, h2, h3, h4, h5, h6⟩

/-- Witness for the amended C3 at a store already holding a `SESSIONS`
table with records: the records survive and the second run is a no-op. -/
theorem create_tables_idempotent_nondestructive_witness :
    ("SESSIONS", 5) ∈ (create_tables samplePreStore).2.tables ∧
    create_tables ((create_tables samplePreStore).2) =
      (true, (create_tables samplePreStore).2) :=
  ⟨(create_tables_idempotent_nondestructive samplePreStore).1 ("SESSIONS", 5)
      (by simp [samplePreStore]),
    (create_tables_idempotent_nondestructive samplePreStore).2.2.2.2.2⟩

end HarvestOracle
